import Mathlib

/-!
Shallow embedding of the Kube-Shield policy-enforcement reconciler
(`operator/pkg/controller/pod_controller.go` and the `v1alpha1` API types)
and proofs about the claims of its specification.

Conventions of the embedding:
* Go strings become `String`, Go `int64` becomes `Int`, Go pointers that can
  be `nil` become `Option`.
* `time.Now()` readings are passed in explicitly as a `now : String`
  parameter (the RFC3339-formatted value the Go code stores).
* Side effects of one reconciliation pass (events POSTed to the audit
  service, pod delete requests, policy status updates) are collected in a
  `ReconcileTrace` value; the fallible Kubernetes API writes are modelled by
  outcome parameters (`writeOutcome`, `deleteOutcome`) supplied by the
  environment.
-/

namespace KubeShield

/-- Mirror of `ShieldPolicySpec` (v1alpha1 types). -/
structure ShieldPolicySpec where
  BlockPrivileged : Bool
  AllowedRegistries : List String
  EnforcementMode : String
  TargetNamespaces : List String
  deriving Repr, DecidableEq

/-- Mirror of `ShieldPolicyStatus` (v1alpha1 types); the `Conditions` list,
unused by the pod controller, is omitted. -/
structure ShieldPolicyStatus where
  Phase : String
  LastEnforcementTime : Option String
  ViolationsCount : Int
  TerminationsCount : Int
  ObservedGeneration : Int
  Message : String
  deriving Repr, DecidableEq

/-- Mirror of `ShieldPolicy` (metadata reduced to the object name, the only
metadata field the pod controller reads). -/
structure ShieldPolicy where
  Name : String
  Spec : ShieldPolicySpec
  Status : ShieldPolicyStatus
  deriving Repr, DecidableEq

/-- Mirror of `corev1.SecurityContext` restricted to the fields the
controller reads. -/
structure SecurityContext where
  Privileged : Option Bool
  RunAsUser : Option Int
  deriving Repr, DecidableEq

/-- Mirror of `corev1.Container` restricted to the fields the controller
reads. -/
structure Container where
  Name : String
  Image : String
  SecurityContext : Option SecurityContext
  deriving Repr, DecidableEq

/-- Mirror of `corev1.Pod` restricted to the fields the controller reads;
`Phase` is the pod status phase string (`"Succeeded"`, `"Failed"`, ...). -/
structure Pod where
  Name : String
  Namespace : String
  HostNetwork : Bool
  NodeName : String
  Containers : List Container
  InitContainers : List Container
  DeletionTimestamp : Option String
  Phase : String
  deriving Repr, DecidableEq

/-- Mirror of the `SecurityEvent` struct of `pod_controller.go`. -/
structure SecurityEvent where
  Timestamp : String
  EventType : String
  Severity : String
  PodName : String
  Namespace : String
  Container : String
  Image : String
  Reason : String
  Action : String
  PolicyName : String
  NodeName : String
  Description : String
  deriving Repr, DecidableEq

/-- `func (s *ShieldPolicy) IsEnforcing() bool`. -/
def ShieldPolicy.IsEnforcing (s : ShieldPolicy) : Bool :=
  s.Spec.EnforcementMode == "" || s.Spec.EnforcementMode == "Enforce"

/-- `func (s *ShieldPolicy) IsAuditing() bool`. -/
def ShieldPolicy.IsAuditing (s : ShieldPolicy) : Bool :=
  s.Spec.EnforcementMode == "Audit"

/-- `func (s *ShieldPolicy) IsDisabled() bool`. -/
def ShieldPolicy.IsDisabled (s : ShieldPolicy) : Bool :=
  s.Spec.EnforcementMode == "Disabled"

/-- `func (s *ShieldPolicy) ShouldBlockPrivileged() bool`. -/
def ShieldPolicy.ShouldBlockPrivileged (s : ShieldPolicy) : Bool :=
  s.Spec.BlockPrivileged && !s.IsDisabled

/-- `func (s *ShieldPolicy) IsRegistryAllowed(registry string) bool`. -/
def ShieldPolicy.IsRegistryAllowed (s : ShieldPolicy) (registry : String) : Bool :=
  if s.Spec.AllowedRegistries.length == 0 then
    true
  else
    s.Spec.AllowedRegistries.any (fun allowed => allowed == registry || allowed == "*")

/-- `func (s *ShieldPolicy) ShouldApplyToNamespace(namespace string) bool`. -/
def ShieldPolicy.ShouldApplyToNamespace (s : ShieldPolicy) (ns : String) : Bool :=
  if ns == "kube-system" then
    false
  else if s.Spec.TargetNamespaces.length == 0 then
    true
  else
    s.Spec.TargetNamespaces.any (fun n => n == ns)

/-- `strings.Contains(s, needle)` for a one-character needle: containment of
that character, computed over the underlying character list. -/
def containsChar (s : String) (c : Char) : Bool :=
  s.data.any (fun a => a == c)

/-- `strings.Split(image, "/")[0]`: the substring of the characters before
the first `/` (the whole string when no `/` occurs). -/
def beforeFirstSlash (s : String) : String :=
  ⟨s.data.takeWhile (fun a => a != '/')⟩

/-- `func extractRegistry(image string) string` of `pod_controller.go`. -/
def extractRegistry (image : String) : String :=
  if !(containsChar image '/') then
    "docker.io"
  else
    let firstPart := beforeFirstSlash image
    if containsChar firstPart '.' || containsChar firstPart ':' then
      firstPart
    else
      "docker.io"

/-- `func (r *PodReconciler) getActionString(policy) string`. -/
def getActionString (policy : ShieldPolicy) : String :=
  if policy.IsEnforcing then "TERMINATED" else "AUDIT"

/-- The privileged-container condition of `checkPodViolations`:
`container.SecurityContext != nil && container.SecurityContext.Privileged != nil && *container.SecurityContext.Privileged`. -/
def containerIsPrivileged (c : Container) : Bool :=
  match c.SecurityContext with
  | some sc =>
    match sc.Privileged with
    | some b => b
    | none => false
  | none => false

/-- The run-as-root condition of `checkPodViolations`:
`container.SecurityContext != nil` and `RunAsUser != nil && *RunAsUser == 0`. -/
def containerRunsAsRoot (c : Container) : Bool :=
  match c.SecurityContext with
  | some sc =>
    match sc.RunAsUser with
    | some u => u == 0
    | none => false
  | none => false

/-- The `HOST_NETWORK` event literal built in `checkPodViolations`. -/
def hostNetworkEvent (now : String) (pod : Pod) (policy : ShieldPolicy) : SecurityEvent :=
  { Timestamp := now, EventType := "HOST_NETWORK", Severity := "HIGH",
    PodName := pod.Name, Namespace := pod.Namespace, Container := "", Image := "",
    Reason := "Pod using host network", Action := "AUDIT",
    PolicyName := policy.Name, NodeName := pod.NodeName,
    Description := "Pod \x27" ++ pod.Name ++
      "\x27 is using host network which can bypass network policies" }

/-- The `PRIVILEGED_CONTAINER` event literal built in `checkPodViolations`. -/
def privilegedEvent (now : String) (pod : Pod) (policy : ShieldPolicy) (c : Container) :
    SecurityEvent :=
  { Timestamp := now, EventType := "PRIVILEGED_CONTAINER", Severity := "CRITICAL",
    PodName := pod.Name, Namespace := pod.Namespace, Container := c.Name, Image := c.Image,
    Reason := "Privileged container detected", Action := getActionString policy,
    PolicyName := policy.Name, NodeName := pod.NodeName,
    Description := "Container \x27" ++ c.Name ++
      "\x27 is running in privileged mode which violates policy \x27" ++ policy.Name ++ "\x27" }

/-- The `DISALLOWED_REGISTRY` event literal built in `checkPodViolations`. -/
def registryEvent (now : String) (pod : Pod) (policy : ShieldPolicy) (c : Container)
    (registry : String) : SecurityEvent :=
  { Timestamp := now, EventType := "DISALLOWED_REGISTRY", Severity := "HIGH",
    PodName := pod.Name, Namespace := pod.Namespace, Container := c.Name, Image := c.Image,
    Reason := "Image from disallowed registry: " ++ registry,
    Action := getActionString policy,
    PolicyName := policy.Name, NodeName := pod.NodeName,
    Description := "Container \x27" ++ c.Name ++ "\x27 uses image from registry \x27" ++
      registry ++ "\x27 which is not in the allowed list" }

/-- The `ROOT_USER` event literal built in `checkPodViolations`. -/
def rootUserEvent (now : String) (pod : Pod) (policy : ShieldPolicy) (c : Container) :
    SecurityEvent :=
  { Timestamp := now, EventType := "ROOT_USER", Severity := "HIGH",
    PodName := pod.Name, Namespace := pod.Namespace, Container := c.Name, Image := c.Image,
    Reason := "Container running as root user", Action := "AUDIT",
    PolicyName := policy.Name, NodeName := pod.NodeName,
    Description := "Container \x27" ++ c.Name ++ "\x27 is configured to run as root (UID 0)" }

/-- The per-container body of the loop in `checkPodViolations`: the privileged
check, then the registry check, then the root-user check, in source order. -/
def checkContainer (now : String) (pod : Pod) (policy : ShieldPolicy) (c : Container) :
    List SecurityEvent :=
  (if policy.ShouldBlockPrivileged && containerIsPrivileged c then
    [privilegedEvent now pod policy c]
  else []) ++
  (if policy.Spec.AllowedRegistries.length > 0 &&
      !policy.IsRegistryAllowed (extractRegistry c.Image) then
    [registryEvent now pod policy c (extractRegistry c.Image)]
  else []) ++
  (if containerRunsAsRoot c then [rootUserEvent now pod policy c] else [])

/-- `func (r *PodReconciler) checkPodViolations(...) []SecurityEvent`: the
pod-level host-network check, followed by the per-container checks over
`append(pod.Spec.Containers, pod.Spec.InitContainers...)` in order. `now` is
the single `time.Now()` reading taken at the top of the function. -/
def checkPodViolations (now : String) (pod : Pod) (policy : ShieldPolicy) :
    List SecurityEvent :=
  (if pod.HostNetwork then [hostNetworkEvent now pod policy] else []) ++
  (pod.Containers ++ pod.InitContainers).flatMap (checkContainer now pod policy)

/-- Result of one `updatePolicyStatus` invocation: the mutated in-memory
policy, the list of status values sent to the API (one entry per
`r.Status().Update` call), and the error the function surfaces to its caller
(the Go function returns nothing and only logs a failed write). -/
structure StatusUpdateResult where
  policy : ShieldPolicy
  writeAttempts : List ShieldPolicyStatus
  surfacedError : Option String
  deriving Repr

/-- `func (r *PodReconciler) updatePolicyStatus(ctx, logger, policy, wasTerminated)`.
`writeOutcome` models the Kubernetes API response to `r.Status().Update`
(`some e` = the write failed, e.g. with a conflict). The body performs the
mutation, then issues exactly one write; a failed write is only logged. -/
def updatePolicyStatus (now : String) (policy : ShieldPolicy) (wasTerminated : Bool)
    (writeOutcome : ShieldPolicyStatus → Option String) : StatusUpdateResult :=
  let st0 := policy.Status
  let st1 := { st0 with LastEnforcementTime := some now,
                        ViolationsCount := st0.ViolationsCount + 1,
                        Phase := "Active" }
  let st2 := if wasTerminated then
               { st1 with TerminationsCount := st1.TerminationsCount + 1,
                          Message := "Last termination at " ++ now }
             else st1
  let p := { policy with Status := st2 }
  match writeOutcome st2 with
  | some _ => { policy := p, writeAttempts := [st2], surfacedError := none }
  | none => { policy := p, writeAttempts := [st2], surfacedError := none }

/-- The observable effects of one reconciliation pass: security events sent
to the audit service, pod delete requests issued (as `namespace/name` keys),
`updatePolicyStatus` invocations (policy name, `wasTerminated` flag), the
total number of status writes sent to the API, and the error returned by
`Reconcile`. -/
structure ReconcileTrace where
  events : List SecurityEvent
  deletes : List String
  statusUpdates : List (String × Bool)
  statusWriteAttempts : Nat
  error : Option String
  deriving Repr, DecidableEq

/-- The empty trace: `return ctrl.Result{}, nil` with no side effects. -/
def ReconcileTrace.noop : ReconcileTrace :=
  { events := [], deletes := [], statusUpdates := [], statusWriteAttempts := 0, error := none }

/-- A trace that only returns an error: `return ctrl.Result{}, err`. -/
def ReconcileTrace.failWith (e : String) : ReconcileTrace :=
  { ReconcileTrace.noop with error := some e }

/-- Sequencing of two trace fragments. -/
def ReconcileTrace.append (t u : ReconcileTrace) : ReconcileTrace :=
  { events := t.events ++ u.events, deletes := t.deletes ++ u.deletes,
    statusUpdates := t.statusUpdates ++ u.statusUpdates,
    statusWriteAttempts := t.statusWriteAttempts + u.statusWriteAttempts,
    error := t.error.orElse (fun _ => u.error) }

/-- The inner `for _, violation := range violations` loop of `Reconcile`:
emit the event, then — if the policy is enforcing — delete the pod, record
the status update with `wasTerminated=true` and return from `Reconcile`
(second component `true`); otherwise record the status update with
`wasTerminated=false` and continue with the next violation. `deleteOutcome`
models `r.Delete` (`some e` = a failure other than NotFound, which Go
propagates as the reconcile error); the mutated in-memory policy copy is
threaded to the next iteration as in the Go loop. -/
def processViolations (now : String) (pod : Pod) (policy : ShieldPolicy)
    (deleteOutcome : Option String)
    (writeOutcome : ShieldPolicyStatus → Option String) :
    List SecurityEvent → ReconcileTrace × Bool
  | [] => (ReconcileTrace.noop, false)
  | violation :: rest =>
    if policy.IsEnforcing then
      match deleteOutcome with
      | some e =>
        ({ events := [violation], deletes := [pod.Namespace ++ "/" ++ pod.Name],
           statusUpdates := [], statusWriteAttempts := 0, error := some e }, true)
      | none =>
        let u := updatePolicyStatus now policy true writeOutcome
        ({ events := [violation], deletes := [pod.Namespace ++ "/" ++ pod.Name],
           statusUpdates := [(policy.Name, true)],
           statusWriteAttempts := u.writeAttempts.length, error := none }, true)
    else
      let u := updatePolicyStatus now policy false writeOutcome
      let next := processViolations now pod u.policy deleteOutcome writeOutcome rest
      ({ events := violation :: next.1.events, deletes := next.1.deletes,
         statusUpdates := (policy.Name, false) :: next.1.statusUpdates,
         statusWriteAttempts := u.writeAttempts.length + next.1.statusWriteAttempts,
         error := next.1.error }, next.2)

/-- The `for _, policy := range policies.Items` loop of `Reconcile`: skip
policies that do not apply to the pod namespace or are disabled, otherwise
detect violations and process them; a termination (or a failed delete)
returns immediately without evaluating the remaining policies. -/
def reconcileLoop (now : String) (pod : Pod) (deleteOutcome : Option String)
    (writeOutcome : ShieldPolicyStatus → Option String) :
    List ShieldPolicy → ReconcileTrace
  | [] => ReconcileTrace.noop
  | policy :: rest =>
    if !policy.ShouldApplyToNamespace pod.Namespace then
      reconcileLoop now pod deleteOutcome writeOutcome rest
    else if policy.IsDisabled then
      reconcileLoop now pod deleteOutcome writeOutcome rest
    else
      let violations := checkPodViolations now pod policy
      let step := processViolations now pod policy deleteOutcome writeOutcome violations
      if step.2 then step.1
      else step.1.append (reconcileLoop now pod deleteOutcome writeOutcome rest)

/-- Outcome of fetching the pod named by the reconcile request. -/
inductive PodFetch where
  | found : Pod → PodFetch
  | notFound : PodFetch
  | fetchError : String → PodFetch

/-- `func (r *PodReconciler) Reconcile(ctx, req)`: the kube-system guard,
the pod fetch, the terminating/terminal-phase guards, the policy list, and
the policy loop. `listOutcome` models `r.List` for ShieldPolicies. -/
def Reconcile (now reqNamespace _reqName : String) (podFetch : PodFetch)
    (listOutcome : Except String (List ShieldPolicy))
    (deleteOutcome : Option String)
    (writeOutcome : ShieldPolicyStatus → Option String) : ReconcileTrace :=
  if reqNamespace == "kube-system" then ReconcileTrace.noop
  else
    match podFetch with
    | .notFound => ReconcileTrace.noop
    | .fetchError e => ReconcileTrace.failWith e
    | .found pod =>
      if pod.DeletionTimestamp.isSome then ReconcileTrace.noop
      else if pod.Phase == "Succeeded" || pod.Phase == "Failed" then ReconcileTrace.noop
      else
        match listOutcome with
        | .error e => ReconcileTrace.failWith e
        | .ok policies => reconcileLoop now pod deleteOutcome writeOutcome policies

/-- A status write that always succeeds. -/
def okWriter : ShieldPolicyStatus → Option String := fun _ => none

/-- A status write that always fails with a conflict, modelling a concurrent
writer winning the optimistic-concurrency race. -/
def conflictWriter : ShieldPolicyStatus → Option String := fun _ => some "Conflict"

/-- A fresh (zero-valued) policy status. -/
def freshStatus : ShieldPolicyStatus :=
  { Phase := "", LastEnforcementTime := none, ViolationsCount := 0,
    TerminationsCount := 0, ObservedGeneration := 0, Message := "" }

/-- Concrete policy: `blockPrivileged: true, enforcementMode: Enforce`. -/
def policyEnforce : ShieldPolicy :=
  { Name := "enforce-policy",
    Spec := { BlockPrivileged := true, AllowedRegistries := [],
              EnforcementMode := "Enforce", TargetNamespaces := [] },
    Status := freshStatus }

/-- Concrete policy: `blockPrivileged: true, enforcementMode: Audit`. -/
def policyAudit : ShieldPolicy :=
  { Name := "audit-policy",
    Spec := { BlockPrivileged := true, AllowedRegistries := [],
              EnforcementMode := "Audit", TargetNamespaces := [] },
    Status := freshStatus }

/-- A benign container: no security context, single-segment image name. -/
def webContainer : Container :=
  { Name := "web", Image := "nginx", SecurityContext := none }

/-- A container whose only issue is `runAsUser: 0`. -/
def rootContainer : Container :=
  { Name := "rootc", Image := "nginx",
    SecurityContext := some { Privileged := none, RunAsUser := some 0 } }

/-- A pod whose only issue is `hostNetwork: true`. -/
def podHostNet : Pod :=
  { Name := "web", Namespace := "default", HostNetwork := true, NodeName := "node-1",
    Containers := [webContainer], InitContainers := [],
    DeletionTimestamp := none, Phase := "Running" }

/-- A pod with `hostNetwork: true` and one container running as root:
two violations under a single policy. -/
def podHostNetRoot : Pod :=
  { podHostNet with Containers := [webContainer, rootContainer] }

/-- A fixed clock reading. -/
def now0 : String := "2024-01-01T00:00:00Z"

/-- A later clock reading. -/
def now1 : String := "2024-01-01T00:00:01Z"

/-- Concrete policy with `enforcementMode: Disabled`. -/
def policyDisabled : ShieldPolicy :=
  { Name := "disabled-policy",
    Spec := { BlockPrivileged := true, AllowedRegistries := [],
              EnforcementMode := "Disabled", TargetNamespaces := [] },
    Status := freshStatus }

/-- Concrete policy whose enforcement mode is the unrecognized lowercase
string `"enforce"`. -/
def policyLowerEnforce : ShieldPolicy :=
  { Name := "lower-enforce-policy",
    Spec := { BlockPrivileged := true, AllowedRegistries := [],
              EnforcementMode := "enforce", TargetNamespaces := [] },
    Status := freshStatus }

/-- The event with its timestamp field blanked, for comparing detector
outputs across different clock readings. -/
def SecurityEvent.eraseTimestamp (e : SecurityEvent) : SecurityEvent :=
  { e with Timestamp := "" }

end KubeShield

namespace KubeShield

/-- `updatePolicyStatus` never surfaces an error to its caller: a failed
write is only logged. -/
theorem updatePolicyStatus_surfacedError (now : String) (p : ShieldPolicy) (b : Bool)
    (w : ShieldPolicyStatus → Option String) :
    (updatePolicyStatus now p b w).surfacedError = none := by
  simp only [updatePolicyStatus]
  split <;> split <;> rfl

/-- `updatePolicyStatus` issues exactly one status write per invocation. -/
theorem updatePolicyStatus_writeAttempts (now : String) (p : ShieldPolicy) (b : Bool)
    (w : ShieldPolicyStatus → Option String) :
    (updatePolicyStatus now p b w).writeAttempts.length = 1 := by
  simp only [updatePolicyStatus]
  split <;> split <;> rfl

/-- `updatePolicyStatus` does not change the policy name. -/
theorem updatePolicyStatus_Name (now : String) (p : ShieldPolicy) (b : Bool)
    (w : ShieldPolicyStatus → Option String) :
    (updatePolicyStatus now p b w).policy.Name = p.Name := by
  simp only [updatePolicyStatus]
  split <;> split <;> rfl

/-- `updatePolicyStatus` does not change the policy spec. -/
theorem updatePolicyStatus_Spec (now : String) (p : ShieldPolicy) (b : Bool)
    (w : ShieldPolicyStatus → Option String) :
    (updatePolicyStatus now p b w).policy.Spec = p.Spec := by
  simp only [updatePolicyStatus]
  split <;> split <;> rfl

/-- `updatePolicyStatus` preserves `IsEnforcing` (it only touches status). -/
theorem updatePolicyStatus_IsEnforcing (now : String) (p : ShieldPolicy) (b : Bool)
    (w : ShieldPolicyStatus → Option String) :
    (updatePolicyStatus now p b w).policy.IsEnforcing = p.IsEnforcing := by
  unfold ShieldPolicy.IsEnforcing
  rw [updatePolicyStatus_Spec]

/-- Full characterization of the violation loop of a non-enforcing policy: every
violation is emitted, its status update recorded with `wasTerminated=false`
and one write attempt, and no delete is issued; the loop never signals
termination. -/
theorem processViolations_not_enforcing (now : String) (pod : Pod) (d : Option String)
    (w : ShieldPolicyStatus → Option String) (vs : List SecurityEvent) :
    ∀ p : ShieldPolicy, p.IsEnforcing = false →
      processViolations now pod p d w vs =
        ({ events := vs, deletes := [],
           statusUpdates := vs.map (fun _ => (p.Name, false)),
           statusWriteAttempts := vs.length, error := none }, false) := by
  induction vs with
  | nil =>
    intro p hp
    simp [processViolations, ReconcileTrace.noop]
  | cons v rest ih =>
    intro p hp
    have hu := updatePolicyStatus_IsEnforcing now p false w
    rw [hp] at hu
    have hn := updatePolicyStatus_Name now p false w
    simp only [processViolations, hp, Bool.false_eq_true, if_false]
    rw [ih _ hu]
    simp [hn, updatePolicyStatus_writeAttempts, Nat.add_comm]

/-- An enforcing policy with at least one violation and a successful delete:
the first violation is emitted, the pod delete issued, one terminated status
update recorded, and the loop signals termination. -/
theorem processViolations_enforcing_cons_ok (now : String) (pod : Pod) (p : ShieldPolicy)
    (w : ShieldPolicyStatus → Option String) (v : SecurityEvent) (vs : List SecurityEvent)
    (hp : p.IsEnforcing = true) :
    processViolations now pod p none w (v :: vs) =
      ({ events := [v], deletes := [pod.Namespace ++ "/" ++ pod.Name],
         statusUpdates := [(p.Name, true)], statusWriteAttempts := 1, error := none }, true) := by
  simp [processViolations, hp, updatePolicyStatus_writeAttempts]

/-- An enforcing policy with at least one violation and a failing delete:
the delete request is issued, the error propagates, and the loop signals
termination without a status update. -/
theorem processViolations_enforcing_cons_err (now : String) (pod : Pod) (p : ShieldPolicy)
    (w : ShieldPolicyStatus → Option String) (v : SecurityEvent) (vs : List SecurityEvent)
    (e : String) (hp : p.IsEnforcing = true) :
    processViolations now pod p (some e) w (v :: vs) =
      ({ events := [v], deletes := [pod.Namespace ++ "/" ++ pod.Name],
         statusUpdates := [], statusWriteAttempts := 0, error := some e }, true) := by
  simp [processViolations, hp]

/-- The violation loop issues at most one delete request. -/
theorem processViolations_deletes_le_one (now : String) (pod : Pod) (p : ShieldPolicy)
    (d : Option String) (w : ShieldPolicyStatus → Option String) (vs : List SecurityEvent) :
    (processViolations now pod p d w vs).1.deletes.length ≤ 1 := by
  cases hp : p.IsEnforcing with
  | false => rw [processViolations_not_enforcing now pod d w vs p hp]; simp
  | true =>
    cases vs with
    | nil => simp [processViolations, ReconcileTrace.noop]
    | cons v rest =>
      cases d with
      | none => rw [processViolations_enforcing_cons_ok now pod p w v rest hp]; simp
      | some e => rw [processViolations_enforcing_cons_err now pod p w v rest e hp]; simp

/-- If the violation loop did not signal termination, it issued no delete. -/
theorem processViolations_no_term_no_delete (now : String) (pod : Pod) (p : ShieldPolicy)
    (d : Option String) (w : ShieldPolicyStatus → Option String) (vs : List SecurityEvent)
    (h : (processViolations now pod p d w vs).2 = false) :
    (processViolations now pod p d w vs).1.deletes = [] := by
  cases hp : p.IsEnforcing with
  | false => rw [processViolations_not_enforcing now pod d w vs p hp]
  | true =>
    cases vs with
    | nil => rfl
    | cons v rest =>
      cases d with
      | none => rw [processViolations_enforcing_cons_ok now pod p w v rest hp] at h; simp at h
      | some e => rw [processViolations_enforcing_cons_err now pod p w v rest e hp] at h; simp at h

/-- With successful deletes, the violation loop never produces an error. -/
theorem processViolations_error_none (now : String) (pod : Pod) (p : ShieldPolicy)
    (w : ShieldPolicyStatus → Option String) (vs : List SecurityEvent) :
    (processViolations now pod p none w vs).1.error = none := by
  cases hp : p.IsEnforcing with
  | false => rw [processViolations_not_enforcing now pod none w vs p hp]
  | true =>
    cases vs with
    | nil => rfl
    | cons v rest => rw [processViolations_enforcing_cons_ok now pod p w v rest hp]

/-- The policy loop issues at most one delete request. -/
theorem reconcileLoop_deletes_le_one (now : String) (pod : Pod) (d : Option String)
    (w : ShieldPolicyStatus → Option String) (ps : List ShieldPolicy) :
    (reconcileLoop now pod d w ps).deletes.length ≤ 1 := by
  induction ps with
  | nil => simp [reconcileLoop, ReconcileTrace.noop]
  | cons p rest ih =>
    simp only [reconcileLoop]
    split
    · exact ih
    · split
      · exact ih
      · split
        · exact processViolations_deletes_le_one now pod p d w _
        · next h =>
          have hfalse : (processViolations now pod p d w (checkPodViolations now pod p)).2 = false :=
            Bool.not_eq_true _ ▸ eq_false_of_ne_true h
          simp [ReconcileTrace.append,
            processViolations_no_term_no_delete now pod p d w _ hfalse, ih]

/-- With successful deletes, the policy loop never produces an error. -/
theorem reconcileLoop_error_none (now : String) (pod : Pod)
    (w : ShieldPolicyStatus → Option String) (ps : List ShieldPolicy) :
    (reconcileLoop now pod none w ps).error = none := by
  induction ps with
  | nil => rfl
  | cons p rest ih =>
    simp only [reconcileLoop]
    split
    · exact ih
    · split
      · exact ih
      · split
        · exact processViolations_error_none now pod p w _
        · simp [ReconcileTrace.append, processViolations_error_none now pod p w _, ih]

/-- The non-timestamp fields of a per-container check do not depend on the
clock reading. -/
theorem checkContainer_eraseTimestamp (t1 t2 : String) (pod : Pod) (p : ShieldPolicy)
    (c : Container) :
    (checkContainer t1 pod p c).map SecurityEvent.eraseTimestamp =
      (checkContainer t2 pod p c).map SecurityEvent.eraseTimestamp := by
  simp only [checkContainer, List.map_append]
  split <;> split <;> split <;> rfl

/-- The non-timestamp fields of the container scan do not depend on the
clock reading. -/
theorem flatMapCheckContainer_eraseTimestamp (t1 t2 : String) (pod : Pod) (p : ShieldPolicy) :
    ∀ cs : List Container,
      (cs.flatMap (checkContainer t1 pod p)).map SecurityEvent.eraseTimestamp =
        (cs.flatMap (checkContainer t2 pod p)).map SecurityEvent.eraseTimestamp
  | [] => rfl
  | c :: cs => by
    simp only [List.flatMap_cons, List.map_append]
    rw [checkContainer_eraseTimestamp t1 t2 pod p c,
      flatMapCheckContainer_eraseTimestamp t1 t2 pod p cs]

/-- The non-timestamp fields of the detector output do not depend on the
clock reading. -/
theorem checkPodViolations_eraseTimestamp (t1 t2 : String) (pod : Pod) (p : ShieldPolicy) :
    (checkPodViolations t1 pod p).map SecurityEvent.eraseTimestamp =
      (checkPodViolations t2 pod p).map SecurityEvent.eraseTimestamp := by
  simp only [checkPodViolations, List.map_append]
  rw [flatMapCheckContainer_eraseTimestamp t1 t2 pod p]
  congr 1
  split <;> rfl

/-- C1: under an Enforce-mode policy, a pod whose only issue is
`hostNetwork: true` yields exactly one HOST_NETWORK/HIGH violation whose
recorded action is AUDIT — yet the pass DOES issue a delete request for the
pod and records a terminated status update, because the loop terminates on
`policy.IsEnforcing()` regardless of the violation type. This evaluates the
code at the failing input of the claim. -/
theorem host_network_enforce_divergence :
    (checkPodViolations now0 podHostNet policyEnforce).map
        (fun e => (e.EventType, e.Severity, e.Action)) = [("HOST_NETWORK", "HIGH", "AUDIT")] ∧
    (Reconcile now0 "default" "web" (.found podHostNet) (.ok [policyEnforce])
        none okWriter).deletes = ["default/web"] ∧
    (Reconcile now0 "default" "web" (.found podHostNet) (.ok [policyEnforce])
        none okWriter).statusUpdates = [("enforce-policy", true)] := by
  refine ⟨by decide, by decide, by decide⟩

/-- C2 counterexample: a single applicable Audit-mode policy detecting two
violations (host network and root user) in one pass has its status updated
twice, not exactly once. -/
theorem status_update_per_policy_counterexample :
    (checkPodViolations now0 podHostNetRoot policyAudit).length = 2 ∧
    (Reconcile now0 "default" "web" (.found podHostNetRoot) (.ok [policyAudit])
        none okWriter).statusUpdates =
      [("audit-policy", false), ("audit-policy", false)] := by
  refine ⟨by decide, by decide⟩

/-- C2 (amended): in a single-policy pass over an applicable, non-disabled
policy, the policy status is updated once per processed violation: for a
non-enforcing policy, once per detected violation with
`wasTerminated=false`; for an enforcing policy with at least one violation,
exactly once with `wasTerminated=true` (the pass stops at the first
violation). -/
theorem status_updates_once_per_processed_violation (now : String) (pod : Pod)
    (p : ShieldPolicy) (w : ShieldPolicyStatus → Option String)
    (happly : p.ShouldApplyToNamespace pod.Namespace = true)
    (hdis : p.IsDisabled = false) :
    (reconcileLoop now pod none w [p]).statusUpdates =
      if p.IsEnforcing && !(checkPodViolations now pod p).isEmpty then [(p.Name, true)]
      else (checkPodViolations now pod p).map (fun _ => (p.Name, false)) := by
  simp only [reconcileLoop, happly, hdis, Bool.not_true, Bool.false_eq_true, if_false]
  cases hp : p.IsEnforcing with
  | false =>
    rw [processViolations_not_enforcing now pod none w _ p hp]
    simp [ReconcileTrace.append, ReconcileTrace.noop]
  | true =>
    cases hvs : checkPodViolations now pod p with
    | nil =>
      simp [processViolations, ReconcileTrace.append, ReconcileTrace.noop]
    | cons v rest =>
      rw [processViolations_enforcing_cons_ok now pod p w v rest hp]
      simp

/-- Witness for the amended C2 theorem at a concrete audit-mode two-violation
input. -/
theorem status_updates_once_per_processed_violation_witness :
    (reconcileLoop now0 podHostNetRoot none okWriter [policyAudit]).statusUpdates =
      [("audit-policy", false), ("audit-policy", false)] := by
  rw [status_updates_once_per_processed_violation now0 podHostNetRoot policyAudit okWriter
    (by decide) (by decide)]
  decide

/-- C3 counterexample: under an always-conflicting status writer, an
invocation of `updatePolicyStatus` performs exactly one write attempt (no
retry), surfaces no error, and the surrounding reconciliation pass returns
success rather than a retryable error. -/
theorem conflicting_status_write_counterexample :
    (updatePolicyStatus now0 policyAudit false conflictWriter).writeAttempts.length = 1 ∧
    (updatePolicyStatus now0 policyAudit false conflictWriter).surfacedError = none ∧
    (Reconcile now0 "default" "web" (.found podHostNetRoot) (.ok [policyAudit])
        none conflictWriter).error = none := by
  refine ⟨by decide, by decide, by decide⟩

/-- C3 (amended): a failed policy status write is logged and dropped: every
`updatePolicyStatus` invocation performs exactly one write attempt whatever
the API outcome, surfaces no error, and the error returned by `Reconcile`
is the same as under an always-succeeding writer. -/
theorem status_write_single_attempt_error_swallowed (now : String) (p : ShieldPolicy)
    (b : Bool) (w : ShieldPolicyStatus → Option String)
    (reqNs reqName : String) (pf : PodFetch) (lo : Except String (List ShieldPolicy)) :
    (updatePolicyStatus now p b w).writeAttempts.length = 1 ∧
    (updatePolicyStatus now p b w).surfacedError = none ∧
    (Reconcile now reqNs reqName pf lo none w).error =
      (Reconcile now reqNs reqName pf lo none okWriter).error := by
  refine ⟨updatePolicyStatus_writeAttempts now p b w,
    updatePolicyStatus_surfacedError now p b w, ?_⟩
  unfold Reconcile
  split
  · rfl
  · split
    · rfl
    · rfl
    · split
      · rfl
      · split
        · rfl
        · split
          · rfl
          · rw [reconcileLoop_error_none, reconcileLoop_error_none]

/-- C4 counterexample: a status-update invocation with `wasTerminated=false`
does change `lastEnforcementTime`. -/
theorem record_pass_counterexample :
    (updatePolicyStatus now0 policyAudit false okWriter).policy.Status.LastEnforcementTime ≠
      policyAudit.Status.LastEnforcementTime := by
  decide

/-- C4 (amended): `wasTerminated=false` increments `violationsCount` by 1,
sets `phase` to Active and `lastEnforcementTime` to now, and leaves
`terminationsCount` and `message` (and `observedGeneration`) unchanged;
`wasTerminated=true` additionally increments `terminationsCount` and sets
`message`. `lastEnforcementTime` is set to now on every invocation, not only
on terminations. -/
theorem record_pass_field_effects (now : String) (p : ShieldPolicy)
    (w : ShieldPolicyStatus → Option String) :
    (updatePolicyStatus now p false w).policy.Status =
      { p.Status with LastEnforcementTime := some now,
                      ViolationsCount := p.Status.ViolationsCount + 1,
                      Phase := "Active" } ∧
    (updatePolicyStatus now p true w).policy.Status =
      { p.Status with LastEnforcementTime := some now,
                      ViolationsCount := p.Status.ViolationsCount + 1,
                      Phase := "Active",
                      TerminationsCount := p.Status.TerminationsCount + 1,
                      Message := "Last termination at " ++ now } := by
  constructor <;> (simp only [updatePolicyStatus]; split <;> rfl)

/-- C5 counterexample: the detector stamps each violation with the current
clock reading, so re-running it at a later clock reading yields a different
(not byte-identical) sequence. -/
theorem detection_timestamp_counterexample :
    checkPodViolations now0 podHostNet policyAudit ≠
      checkPodViolations now1 podHostNet policyAudit := by
  decide

/-- C5 (amended): detection is a pure function — running it twice on the
same snapshot, policy and clock reading yields identical sequences — and for
any two clock readings the outputs agree on every field except the
timestamp. -/
theorem detection_deterministic_mod_timestamp (t1 t2 : String) (pod : Pod)
    (p : ShieldPolicy) :
    checkPodViolations t1 pod p = checkPodViolations t1 pod p ∧
    (checkPodViolations t1 pod p).map SecurityEvent.eraseTimestamp =
      (checkPodViolations t2 pod p).map SecurityEvent.eraseTimestamp :=
  ⟨rfl, checkPodViolations_eraseTimestamp t1 t2 pod p⟩

/-- C6: a reconciliation pass issues at most one delete request, and once a
policy has its violation processing signal termination the result of the loop is
independent of the remaining policies (they are never evaluated). -/
theorem at_most_one_termination_and_early_return
    (now reqNs reqName : String) (pf : PodFetch) (lo : Except String (List ShieldPolicy))
    (d : Option String) (w : ShieldPolicyStatus → Option String)
    (pod : Pod) (p : ShieldPolicy) (rest rest' : List ShieldPolicy)
    (happly : p.ShouldApplyToNamespace pod.Namespace = true)
    (hdis : p.IsDisabled = false)
    (hterm : (processViolations now pod p d w (checkPodViolations now pod p)).2 = true) :
    (Reconcile now reqNs reqName pf lo d w).deletes.length ≤ 1 ∧
    reconcileLoop now pod d w (p :: rest) = reconcileLoop now pod d w (p :: rest') := by
  constructor
  · unfold Reconcile
    split
    · simp [ReconcileTrace.noop]
    · split
      · simp [ReconcileTrace.noop]
      · simp [ReconcileTrace.failWith, ReconcileTrace.noop]
      · split
        · simp [ReconcileTrace.noop]
        · split
          · simp [ReconcileTrace.noop]
          · split
            · simp [ReconcileTrace.failWith, ReconcileTrace.noop]
            · exact reconcileLoop_deletes_le_one _ _ _ _ _
  · simp only [reconcileLoop, happly, hdis, Bool.not_true, Bool.false_eq_true, if_false,
      hterm, if_true]

/-- Witness for the C6 theorem at a concrete enforcing input. -/
theorem at_most_one_termination_and_early_return_witness :
    (Reconcile now0 "default" "web" (.found podHostNet) (.ok [policyEnforce])
        none okWriter).deletes.length ≤ 1 ∧
    reconcileLoop now0 podHostNet none okWriter [policyEnforce, policyAudit] =
      reconcileLoop now0 podHostNet none okWriter [policyEnforce] :=
  at_most_one_termination_and_early_return now0 "default" "web" (.found podHostNet)
    (.ok [policyEnforce]) none okWriter podHostNet policyEnforce [policyAudit] []
    (by decide) (by decide) (by decide)

/-- C7: a reconcile request in the reserved kube-system namespace is an
immediate no-op, and no policy ever applies to that namespace. -/
theorem kube_system_never_evaluated (now reqName : String) (pf : PodFetch)
    (lo : Except String (List ShieldPolicy)) (d : Option String)
    (w : ShieldPolicyStatus → Option String) (s : ShieldPolicy) :
    Reconcile now "kube-system" reqName pf lo d w = ReconcileTrace.noop ∧
    s.ShouldApplyToNamespace "kube-system" = false :=
  ⟨rfl, rfl⟩

/-- C8: a Disabled policy anywhere in the policy list contributes nothing to
the pass — the trace is the same as if the policy were absent (no detection,
no emission, no status update, no termination under it). -/
theorem disabled_policy_contributes_nothing (now : String) (pod : Pod) (d : Option String)
    (w : ShieldPolicyStatus → Option String) (p : ShieldPolicy)
    (l1 l2 : List ShieldPolicy) (hdis : p.Spec.EnforcementMode = "Disabled") :
    reconcileLoop now pod d w (l1 ++ p :: l2) = reconcileLoop now pod d w (l1 ++ l2) := by
  have hd : p.IsDisabled = true := by simp [ShieldPolicy.IsDisabled, hdis]
  induction l1 with
  | nil =>
    show reconcileLoop now pod d w (p :: l2) = reconcileLoop now pod d w l2
    simp [reconcileLoop, hd]
  | cons q l1 ih =>
    simp only [List.cons_append, reconcileLoop, List.append_eq]
    rw [ih]

/-- Witness for the C8 theorem at a concrete disabled policy. -/
theorem disabled_policy_contributes_nothing_witness :
    reconcileLoop now0 podHostNetRoot none okWriter [policyDisabled, policyAudit] =
      reconcileLoop now0 podHostNetRoot none okWriter [policyAudit] :=
  disabled_policy_contributes_nothing now0 podHostNetRoot none okWriter policyDisabled
    [] [policyAudit] (by decide)

/-- C9: registry extraction behaves as specified, on the four given examples
and in general: no slash yields docker.io, otherwise the segment before the
first slash is the registry when it contains a dot or colon, else
docker.io. -/
theorem extractRegistry_matches_spec :
    extractRegistry "nginx" = "docker.io" ∧
    extractRegistry "myregistry.io/nginx" = "myregistry.io" ∧
    extractRegistry "library/nginx" = "docker.io" ∧
    extractRegistry "localhost:5000/app" = "localhost:5000" ∧
    (∀ image : String, containsChar image '/' = false → extractRegistry image = "docker.io") ∧
    (∀ image : String, containsChar image '/' = true →
      extractRegistry image =
        if containsChar (beforeFirstSlash image) '.' ||
            containsChar (beforeFirstSlash image) ':' then
          beforeFirstSlash image
        else "docker.io") := by
  refine ⟨by decide, by decide, by decide, by decide, ?_, ?_⟩
  · intro image h
    simp [extractRegistry, h]
  · intro image h
    simp [extractRegistry, h]

/-- Witness for the C9 theorem, discharging both general clauses at concrete
images. -/
theorem extractRegistry_matches_spec_witness :
    containsChar "redis" '/' = false ∧ extractRegistry "redis" = "docker.io" ∧
    containsChar "ghcr.io/owner/app" '/' = true ∧
    extractRegistry "ghcr.io/owner/app" =
      (if containsChar (beforeFirstSlash "ghcr.io/owner/app") '.' ||
          containsChar (beforeFirstSlash "ghcr.io/owner/app") ':' then
        beforeFirstSlash "ghcr.io/owner/app"
      else "docker.io") :=
  ⟨by decide, extractRegistry_matches_spec.2.2.2.2.1 "redis" (by decide), by decide,
   extractRegistry_matches_spec.2.2.2.2.2 "ghcr.io/owner/app" (by decide)⟩

/-- C10: an unrecognized enforcement mode (e.g. "enforce") makes
`IsEnforcing`, `IsAuditing` and `IsDisabled` all false, and such a policy is
processed audit-like: every violation is emitted with a `wasTerminated=false`
status update, no delete is issued, and the loop continues to the remaining
policies. -/
theorem unknown_mode_treated_as_audit (p : ShieldPolicy) (now : String) (pod : Pod)
    (rest : List ShieldPolicy) (d : Option String) (w : ShieldPolicyStatus → Option String)
    (h1 : p.Spec.EnforcementMode ≠ "") (h2 : p.Spec.EnforcementMode ≠ "Enforce")
    (h3 : p.Spec.EnforcementMode ≠ "Audit") (h4 : p.Spec.EnforcementMode ≠ "Disabled")
    (happly : p.ShouldApplyToNamespace pod.Namespace = true) :
    p.IsEnforcing = false ∧ p.IsAuditing = false ∧ p.IsDisabled = false ∧
    processViolations now pod p d w (checkPodViolations now pod p) =
      ({ events := checkPodViolations now pod p, deletes := [],
         statusUpdates := (checkPodViolations now pod p).map (fun _ => (p.Name, false)),
         statusWriteAttempts := (checkPodViolations now pod p).length, error := none },
       false) ∧
    reconcileLoop now pod d w (p :: rest) =
      ReconcileTrace.append
        (processViolations now pod p d w (checkPodViolations now pod p)).1
        (reconcileLoop now pod d w rest) := by
  have hE : p.IsEnforcing = false := by
    simp [ShieldPolicy.IsEnforcing, h1, h2]
  have hA : p.IsAuditing = false := by
    simp [ShieldPolicy.IsAuditing, h3]
  have hD : p.IsDisabled = false := by
    simp [ShieldPolicy.IsDisabled, h4]
  have hProc := processViolations_not_enforcing now pod d w (checkPodViolations now pod p) p hE
  refine ⟨hE, hA, hD, hProc, ?_⟩
  simp only [reconcileLoop, happly, hD, Bool.not_true, Bool.false_eq_true, if_false, hProc]

/-- Witness for the C10 theorem at the concrete lowercase-mode policy. -/
theorem unknown_mode_treated_as_audit_witness :
    policyLowerEnforce.IsEnforcing = false ∧ policyLowerEnforce.IsAuditing = false ∧
    policyLowerEnforce.IsDisabled = false := by
  have h := unknown_mode_treated_as_audit policyLowerEnforce now0 podHostNet [] none okWriter
    (by decide) (by decide) (by decide) (by decide) (by decide)
  exact ⟨h.1, h.2.1, h.2.2.1⟩

end KubeShield
